import Mathlib

/-
  Verification of the hecksum repository against its specification.

  The repository holds two generations of the same program:
  - src/hecksum.py            (old module: Reference, ReferenceFactory, Project,
                               Status, Check and the top level run loop)
  - src/hecksum/references.py (new module: BaseReference, Reference,
                               ReferenceFactory and its variants)

  Both are embedded below: namespace References embeds
  src/hecksum/references.py, namespace HecksumPy embeds src/hecksum.py.
  Machine integers are Nat with explicit reduction modulo 2 to the word
  width, fallible code returns Except, and the HTTP transport is an
  explicit oracle passed to every function that performs a GET.
-/

/-! ## Byte and hex helpers -/

def M32 : Nat := 4294967296

def M64 : Nat := 18446744073709551616

/-- Big endian bytes of a value, nbytes wide. -/
def bytesBE (nbytes v : Nat) : List Nat :=
  (List.range nbytes).map (fun i => (v >>> (8 * (nbytes - 1 - i))) &&& 255)

def hexDigitChars : List Char := "0123456789abcdef".data

/-- Big endian hex digits of a value, ndigits wide. -/
def hexBE : Nat → Nat → List Char
  | 0, _ => []
  | d + 1, v => hexDigitChars.getD ((v >>> (4 * d)) &&& 15) '0' :: hexBE d v

def chunksOfAux (n : Nat) : Nat → List α → List (List α)
  | _, [] => []
  | 0, _ => []
  | fuel + 1, l => l.take n :: chunksOfAux n fuel (l.drop n)

/-- Split a list into consecutive chunks of n elements (last may be shorter). -/
def chunksOf (n : Nat) (l : List α) : List (List α) :=
  chunksOfAux n l.length l

/-- A big endian word from a list of bytes. -/
def bytesToWord (bs : List Nat) : Nat :=
  bs.foldl (fun acc b => acc * 256 + b) 0

/-! ## SHA-256 (FIPS 180-4), executable, bytes in, lowercase hex out -/

def sha2Pad (blockBytes lenBytes : Nat) (msg : List Nat) : List Nat :=
  let L := msg.length
  let target := blockBytes - lenBytes
  let k := (blockBytes + target - (L + 1) % blockBytes) % blockBytes
  msg ++ 128 :: List.replicate k 0 ++ bytesBE lenBytes (L * 8)

def rotr32 (n x : Nat) : Nat := ((x >>> n) ||| (x <<< (32 - n))) % M32

def bsig0x256 (x : Nat) : Nat := (rotr32 2 x) ^^^ (rotr32 13 x) ^^^ (rotr32 22 x)

def bsig1x256 (x : Nat) : Nat := (rotr32 6 x) ^^^ (rotr32 11 x) ^^^ (rotr32 25 x)

def ssig0x256 (x : Nat) : Nat := (rotr32 7 x) ^^^ (rotr32 18 x) ^^^ (x >>> 3)

def ssig1x256 (x : Nat) : Nat := (rotr32 17 x) ^^^ (rotr32 19 x) ^^^ (x >>> 10)

def chW (m x y z : Nat) : Nat := (x &&& y) ^^^ (((m - 1) ^^^ x) &&& z)

def majW (x y z : Nat) : Nat := (x &&& y) ^^^ (x &&& z) ^^^ (y &&& z)

def K256 : List Nat :=
  [1116352408, 1899447441, 3049323471, 3921009573, 961987163,
   1508970993, 2453635748, 2870763221, 3624381080, 310598401,
   607225278, 1426881987, 1925078388, 2162078206, 2614888103,
   3248222580, 3835390401, 4022224774, 264347078, 604807628,
   770255983, 1249150122, 1555081692, 1996064986, 2554220882,
   2821834349, 2952996808, 3210313671, 3336571891, 3584528711,
   113926993, 338241895, 666307205, 773529912, 1294757372,
   1396182291, 1695183700, 1986661051, 2177026350, 2456956037,
   2730485921, 2820302411, 3259730800, 3345764771, 3516065817,
   3600352804, 4094571909, 275423344, 430227734, 506948616,
   659060556, 883997877, 958139571, 1322822218, 1537002063,
   1747873779, 1955562222, 2024104815, 2227730452, 2361852424,
   2428436474, 2756734187, 3204031479, 3329325298]

def H256 : List Nat :=
  [1779033703, 3144134277, 1013904242, 2773480762,
   1359893119, 2600822924, 528734635, 1541459225]

def sha256SchedAux : Nat → List Nat → List Nat
  | 0, w => w
  | n + 1, w =>
    let i := w.length
    let nw := (ssig1x256 (w.getD (i - 2) 0) + w.getD (i - 7) 0
               + ssig0x256 (w.getD (i - 15) 0) + w.getD (i - 16) 0) % M32
    sha256SchedAux n (w ++ [nw])

def sha256Round (st : List Nat) (k w : Nat) : List Nat :=
  match st with
  | [a, b, c, d, e, f, g, h] =>
    let t1 := (h + bsig1x256 e + chW M32 e f g + k + w) % M32
    let t2 := (bsig0x256 a + majW a b c) % M32
    [(t1 + t2) % M32, a, b, c, (d + t1) % M32, e, f, g]
  | other => other

def sha256Compress (H block : List Nat) : List Nat :=
  let W := sha256SchedAux 48 block
  let st := (K256.zip W).foldl (fun st p => sha256Round st p.1 p.2) H
  (H.zip st).map (fun p => (p.1 + p.2) % M32)

def sha256Words (msg : List Nat) : List Nat :=
  (chunksOf 64 (sha2Pad 64 8 msg)).foldl
    (fun H b => sha256Compress H ((chunksOf 4 b).map bytesToWord)) H256

def sha256Hex (msg : List Nat) : String :=
  String.mk (((sha256Words msg).map (hexBE 8)).foldr (fun a b => a ++ b) [])

/-! ## SHA-512 (FIPS 180-4) -/

def rotr64 (n x : Nat) : Nat := ((x >>> n) ||| (x <<< (64 - n))) % M64

def bsig0x512 (x : Nat) : Nat := (rotr64 28 x) ^^^ (rotr64 34 x) ^^^ (rotr64 39 x)

def bsig1x512 (x : Nat) : Nat := (rotr64 14 x) ^^^ (rotr64 18 x) ^^^ (rotr64 41 x)

def ssig0x512 (x : Nat) : Nat := (rotr64 1 x) ^^^ (rotr64 8 x) ^^^ (x >>> 7)

def ssig1x512 (x : Nat) : Nat := (rotr64 19 x) ^^^ (rotr64 61 x) ^^^ (x >>> 6)

def K512 : List Nat :=
  [4794697086780616226, 8158064640168781261, 13096744586834688815,
   16840607885511220156, 4131703408338449720, 6480981068601479193,
   10538285296894168987, 12329834152419229976, 15566598209576043074,
   1334009975649890238, 2608012711638119052, 6128411473006802146,
   8268148722764581231, 9286055187155687089, 11230858885718282805,
   13951009754708518548, 16472876342353939154, 17275323862435702243,
   1135362057144423861, 2597628984639134821, 3308224258029322869,
   5365058923640841347, 6679025012923562964, 8573033837759648693,
   10970295158949994411, 12119686244451234320, 12683024718118986047,
   13788192230050041572, 14330467153632333762, 15395433587784984357,
   489312712824947311, 1452737877330783856, 2861767655752347644,
   3322285676063803686, 5560940570517711597, 5996557281743188959,
   7280758554555802590, 8532644243296465576, 9350256976987008742,
   10552545826968843579, 11727347734174303076, 12113106623233404929,
   14000437183269869457, 14369950271660146224, 15101387698204529176,
   15463397548674623760, 17586052441742319658, 1182934255886127544,
   1847814050463011016, 2177327727835720531, 2830643537854262169,
   3796741975233480872, 4115178125766777443, 5681478168544905931,
   6601373596472566643, 7507060721942968483, 8399075790359081724,
   8693463985226723168, 9568029438360202098, 10144078919501101548,
   10430055236837252648, 11840083180663258601, 13761210420658862357,
   14299343276471374635, 14566680578165727644, 15097957966210449927,
   16922976911328602910, 17689382322260857208, 500013540394364858,
   748580250866718886, 1242879168328830382, 1977374033974150939,
   2944078676154940804, 3659926193048069267, 4368137639120453308,
   4836135668995329356, 5532061633213252278, 6448918945643986474,
   6902733635092675308, 7801388544844847127]

def H512 : List Nat :=
  [7640891576956012808, 13503953896175478587,
   4354685564936845355, 11912009170470909681,
   5840696475078001361, 11170449401992604703,
   2270897969802886507, 6620516959819538809]

def sha512SchedAux : Nat → List Nat → List Nat
  | 0, w => w
  | n + 1, w =>
    let i := w.length
    let nw := (ssig1x512 (w.getD (i - 2) 0) + w.getD (i - 7) 0
               + ssig0x512 (w.getD (i - 15) 0) + w.getD (i - 16) 0) % M64
    sha512SchedAux n (w ++ [nw])

def sha512Round (st : List Nat) (k w : Nat) : List Nat :=
  match st with
  | [a, b, c, d, e, f, g, h] =>
    let t1 := (h + bsig1x512 e + chW M64 e f g + k + w) % M64
    let t2 := (bsig0x512 a + majW a b c) % M64
    [(t1 + t2) % M64, a, b, c, (d + t1) % M64, e, f, g]
  | other => other

def sha512Compress (H block : List Nat) : List Nat :=
  let W := sha512SchedAux 64 block
  let st := (K512.zip W).foldl (fun st p => sha512Round st p.1 p.2) H
  (H.zip st).map (fun p => (p.1 + p.2) % M64)

def sha512Words (msg : List Nat) : List Nat :=
  (chunksOf 128 (sha2Pad 128 16 msg)).foldl
    (fun H b => sha512Compress H ((chunksOf 8 b).map bytesToWord)) H512

def sha512Hex (msg : List Nat) : String :=
  String.mk (((sha512Words msg).map (hexBE 16)).foldr (fun a b => a ++ b) [])

/-! ## Python domain model: exceptions, responses, the transport oracle -/

/-- The exception kinds the embedded code can meet. All constructors stand for
    subclasses of the Python class Exception. requestException covers every
    transport failure raised by the requests library, httpError is the
    exception of raise_for_status on a non 2xx response (itself a subclass of
    requestException in the library, kept separate here), attributeError and
    typeError arise from a failed pattern match (group or subscript on None)
    and from missing attributes, valueError from hashlib.new on an unknown
    algorithm name, keyError from a dictionary lookup, and runtimeError stands
    for any other exception kind. -/
inductive PyExc where
  | requestException : PyExc
  | httpError : PyExc
  | attributeError : String → PyExc
  | typeError : PyExc
  | valueError : PyExc
  | keyError : PyExc
  | runtimeError : PyExc
deriving DecidableEq

/-- An HTTP response: final URL after redirects, body as text, body as bytes,
    and whether the status code was a success. -/
structure Resp where
  url : String := ""
  text : String := ""
  content : List Nat := []
  ok : Bool := true
deriving DecidableEq

/-- The transport oracle: what requests.get returns (or raises) per URL. -/
def Net : Type := String → Except PyExc Resp

/-- requests.get on an optional URL: the code passes Reference fields that may
    be None, and requests raises MissingSchema (a RequestException) on None. -/
def getOpt (net : Net) (url : Option String) : Except PyExc Resp :=
  match url with
  | none => .error .requestException
  | some u => net u

/-- src/hecksum.py get_raised (lines 13 to 16): GET the URL and
    raise_for_status, so a non 2xx response becomes an exception. The module
    src/hecksum/references.py imports the same helper from hecksum.functions,
    a file absent from src; the spec describes it as the fetch helper that
    performs an HTTP GET and raises on non success status, which is this
    function. -/
def get_raised (net : Net) (url : Option String) : Except PyExc Resp :=
  match getOpt net url with
  | .error e => .error e
  | .ok r => if r.ok then .ok r else .error .httpError

/-- Modelled from the spec: the module settings.py that defines
    IGNORED_EXCEPTIONS is not under src. Per the spec the ignorable kinds are
    network errors and parse or pattern-not-found errors; in this embedding
    those are the transport errors and the attributeError and typeError that a
    failed regex match produces. -/
def IGNORED_EXCEPTIONS : PyExc → Bool
  | .requestException => true
  | .httpError => true
  | .attributeError _ => true
  | .typeError => true
  | _ => false

/-- The characters stripped by the Python str.strip method (ASCII range). -/
def isPyWhitespace (c : Char) : Bool :=
  c = ' ' || c = '\t' || c = '\n' || c = '\r' || c = '\x0b' || c = '\x0c'

/-- Python str.strip with no argument: drop leading and trailing whitespace.
    (pydantic constr strip_whitespace applies exactly this.) -/
def pyStrip (s : String) : String :=
  String.mk (((s.data.dropWhile isPyWhitespace).reverse.dropWhile isPyWhitespace).reverse)

/-- Python truthiness of an Optional str field: None and the empty string are
    falsy, any other string is truthy. -/
def truthyStr : Option String → Bool
  | none => false
  | some s => !(s == "")

/-! ## Regex models

The extractors use re.search with five fixed pattern shapes. Each is embedded
as a direct scanning function with the semantics of the Python re module:
the search scans candidate start positions from the left and returns the
first position at which the whole pattern matches, the dot metacharacter
matches any character except a newline, and a greedy subpattern takes the
longest extent that lets the rest of the pattern match. -/

/-- Match a literal at the head of the input: some rest on success. -/
def matchLit (lit s : List Char) : Option (List Char) :=
  if lit.isPrefixOf s then some (s.drop lit.length) else none

/-- The characters of the input up to the end of the current line, which is
    where an unanchored dot-star group can reach (dot does not match a
    newline). -/
def upToNewline (s : List Char) : List Char := s.takeWhile (fun c => c != '\n')

/-- The group captured by a greedy dot-star followed by a double quote: the
    characters before the last double quote of the line, or none when the line
    holds no double quote. -/
def lastQuoteGroup (s : List Char) : Option (List Char) :=
  match s.reverse.dropWhile (fun c => c != '\x22') with
  | [] => none
  | _ :: before => some before.reverse

/-- Match, at the head of the input, the pattern written in the source as the
    literal followed by a parenthesised greedy dot-star and a closing double
    quote; returns the captured group. -/
def quotedGroupAt (lit s : List Char) : Option (List Char) :=
  match matchLit lit s with
  | none => none
  | some rest => lastQuoteGroup (upToNewline rest)

/-- re.search for the quoted-group pattern: first start position wins. -/
def searchQuotedAux (lit : List Char) : List Char → Option (List Char)
  | [] => quotedGroupAt lit []
  | c :: rest =>
    match quotedGroupAt lit (c :: rest) with
    | some g => some g
    | none => searchQuotedAux lit rest

def searchQuoted (lit text : String) : Option String :=
  (searchQuotedAux lit.data text.data).map String.mk

/-- The group captured by a leading parenthesised greedy dot-star followed by
    a literal: the characters before the last occurrence of the literal, or
    none when the literal does not occur. -/
def lastSplitBefore (lit : List Char) : List Char → Option (List Char)
  | [] => if lit.isEmpty then some [] else none
  | c :: rest =>
    match lastSplitBefore lit rest with
    | some p => some (c :: p)
    | none => if lit.isPrefixOf (c :: rest) then some [] else none

def groupBeforeAt (lit s : List Char) : Option (List Char) :=
  lastSplitBefore lit (upToNewline s)

/-- re.search for the group-before-literal pattern: first start position
    wins. -/
def searchGroupBeforeAux (lit : List Char) : List Char → Option (List Char)
  | [] => groupBeforeAt lit []
  | c :: rest =>
    match groupBeforeAt lit (c :: rest) with
    | some g => some g
    | none => searchGroupBeforeAux lit rest

def searchGroupBefore (lit text : String) : Option String :=
  (searchGroupBeforeAux lit.data text.data).map String.mk

/-- Python character class w (ASCII range): letter, digit or underscore. -/
def isWordChar (c : Char) : Bool := c.isAlphanum || c = '_'

def digitRun (s : List Char) : List Char × List Char :=
  (s.takeWhile Char.isDigit, s.dropWhile Char.isDigit)

/-- Match, at the head of the input, the version pattern of the Doppler
    extractor: one or more digits, a dot, one or more digits, a dot, one or
    more digits; returns the whole match. A greedy digit run needs no
    backtracking because the character after a shortened run would again be a
    digit and could not match the dot. -/
def versionMatchAt (s : List Char) : Option (List Char) :=
  let p1 := digitRun s
  if p1.1.isEmpty then none else
  match p1.2 with
  | '.' :: r2 =>
    let p2 := digitRun r2
    if p2.1.isEmpty then none else
    match p2.2 with
    | '.' :: r4 =>
      let p3 := digitRun r4
      if p3.1.isEmpty then none else
      some (p1.1 ++ '.' :: p2.1 ++ '.' :: p3.1)
    | _ => none
  | _ => none

/-- re.search for the version pattern: first start position wins; the
    subscript zero in the source takes the whole match. -/
def versionSearchAux : List Char → Option (List Char)
  | [] => versionMatchAt []
  | c :: rest =>
    match versionMatchAt (c :: rest) with
    | some v => some v
    | none => versionSearchAux rest

def versionSearch (s : String) : Option String :=
  (versionSearchAux s.data).map String.mk

/-- Match a fragment that the source interpolates raw into a regex (the
    Doppler version and architecture): a dot in the fragment is the regex dot
    and matches any character but a newline, every other character of the
    values used matches itself. Returns the consumed characters and the rest. -/
def matchRaw : List Char → List Char → Option (List Char × List Char)
  | [], s => some ([], s)
  | _ :: _, [] => none
  | p :: ps, c :: cs =>
    if p = '.' then
      if c = '\n' then none
      else (matchRaw ps cs).map (fun pr => (c :: pr.1, pr.2))
    else if p = c then (matchRaw ps cs).map (fun pr => (c :: pr.1, pr.2))
    else none

/-- The character class of the tail of the Doppler file name pattern: word
    character or dot. -/
def wordDot (c : Char) : Bool := isWordChar c || c = '.'

/-- Match, at the head of the input, the Doppler manifest pattern built in the
    source from the version and the architecture: a first group of exactly 64
    word characters, two spaces, and a second group of the literal text
    doppler underscore, the version, underscore, the architecture, an escaped
    dot, and a greedy run of at least one word character or dot. Returns the
    two captured groups. The greedy tail needs no backtracking because the
    pattern ends with it. -/
def dopplerMatchAt (version arch : String) (s : List Char) : Option (String × String) :=
  let g1 := s.take 64
  if g1.length = 64 && g1.all isWordChar then
    match s.drop 64 with
    | ' ' :: ' ' :: rest =>
      match matchRaw "doppler_".data rest with
      | none => none
      | some pd =>
        match matchRaw version.data pd.2 with
        | none => none
        | some pv =>
          match matchRaw "_".data pv.2 with
          | none => none
          | some pu =>
            match matchRaw arch.data pu.2 with
            | none => none
            | some pa =>
              match pa.2 with
              | '.' :: tail =>
                let run := tail.takeWhile wordDot
                if run.isEmpty then none
                else some (String.mk g1,
                  String.mk (pd.1 ++ pv.1 ++ pu.1 ++ pa.1 ++ '.' :: run))
              | _ => none
    | _ => none
  else none

/-- re.search for the Doppler manifest pattern: first start position wins. -/
def dopplerSearchAux (version arch : String) : List Char → Option (String × String)
  | [] => dopplerMatchAt version arch []
  | c :: rest =>
    match dopplerMatchAt version arch (c :: rest) with
    | some r => some r
    | none => dopplerSearchAux version arch rest

def dopplerSearch (version arch text : String) : Option (String × String) :=
  dopplerSearchAux version arch text.data

/-- Python str.format with a single version field: every occurrence of the
    field is replaced by the version (the templates in the source contain no
    other format syntax). -/
def replaceAux (pat repl : List Char) : Nat → List Char → List Char
  | _, [] => []
  | 0, l => l
  | fuel + 1, c :: rest =>
    if pat.isPrefixOf (c :: rest) && !pat.isEmpty then
      repl ++ replaceAux pat repl fuel ((c :: rest).drop pat.length)
    else c :: replaceAux pat repl fuel rest

def pyFormat (template version : String) : String :=
  String.mk (replaceAux "{version}".data version.data template.data.length template.data)

/-! ## Embedding of src/hecksum/references.py -/

namespace References

/-- BaseReference and Reference (lines 12 to 24): algorithm is a required str,
    the three other fields are optional; checksum is declared as
    constr strip_whitespace, and Reference validates on assignment, so every
    value stored in checksum is whitespace stripped. The HttpUrl fields are
    modelled as strings; every URL the code assigns is a literal well formed
    https URL, so the pydantic URL validation never fires. -/
structure Reference where
  algorithm : String
  checksum_url : Option String := none
  download_url : Option String := none
  checksum : Option String := none
deriving DecidableEq

/-- Assignment to the checksum field of a Reference: validate_assignment plus
    constr strip_whitespace strip the value. -/
def setChecksum (r : Reference) (v : String) : Reference :=
  { r with checksum := some (pyStrip v) }

/-- Reference.populated (lines 23 to 24): all of the values of the field
    dictionary, under Python truthiness, in declaration order algorithm,
    checksum_url, download_url, checksum. -/
def populated (r : Reference) : Bool :=
  [some r.algorithm, r.checksum_url, r.download_url, r.checksum].all truthyStr

/-- The hashlib.new constructors the program asks for by name. -/
def hashlibNew (algorithm : String) : Option (List Nat → String) :=
  if algorithm = "sha256" then some sha256Hex
  else if algorithm = "sha512" then some sha512Hex
  else none

/-- Reference.get_download_checksum (lines 26 to 33): build the hash object
    from the algorithm name (ValueError on an unknown name), GET download_url
    as a stream, raise_for_status, feed the content chunkwise into the hash
    and return the hex digest. Feeding successive chunks computes the digest
    of their concatenation, so the embedding hashes the whole content. -/
def get_download_checksum (net : Net) (r : Reference) : Except PyExc String :=
  match hashlibNew r.algorithm with
  | none => .error .valueError
  | some h =>
    match getOpt net r.download_url with
    | .error e => .error e
    | .ok resp => if resp.ok then .ok (h resp.content) else .error .httpError

/-- The variant specific part of a factory: which _populate override runs, and
    the extra fields the subclasses declare. -/
inductive FactoryKind where
  | generic : FactoryKind
  | codecov : FactoryKind
  | transmission : (file_name_template sha_key version_key : String) → FactoryKind
  | doppler : (architecture : String) → FactoryKind
deriving DecidableEq

/-- ReferenceFactory (lines 36 to 49) and its subclasses: a BaseReference
    with allow_mutation set to False plus the subclass fields. -/
structure ReferenceFactory where
  algorithm : String
  checksum_url : Option String := none
  download_url : Option String := none
  checksum : Option String := none
  kind : FactoryKind := .generic
deriving DecidableEq

/-- The Reference built at the top of make from the field dictionary of the
    factory; the checksum value passes through the strip validator again. -/
def seedRef (f : ReferenceFactory) : Reference :=
  { algorithm := f.algorithm
    checksum_url := f.checksum_url
    download_url := f.download_url
    checksum := f.checksum.map pyStrip }

/-- CodecovBashUploader._populate (lines 56 to 61): GET download_url, extract
    the version from a VERSION equals quoted string pattern, build
    checksum_url, GET it, extract the group before the two spaces and the word
    codecov. A failed match raises attributeError (group on None). The
    returned pair is the reference state reached and the exception raised, if
    any. -/
def codecovPopulate (net : Net) (ref : Reference) : Reference × Option PyExc :=
  match get_raised net ref.download_url with
  | .error e => (ref, some e)
  | .ok script =>
    match searchQuoted "VERSION=\x22" script.text with
    | none => (ref, some (.attributeError "group"))
    | some version =>
      let cu := "https://raw.githubusercontent.com/codecov/codecov-bash/" ++ version ++ "/SHA512SUM"
      let ref := { ref with checksum_url := some cu }
      match get_raised net ref.checksum_url with
      | .error e => (ref, some e)
      | .ok cs =>
        match searchGroupBefore "  codecov" cs.text with
        | none => (ref, some (.attributeError "group"))
        | some g => (setChecksum ref g, none)

/-- Transmission._populate (lines 71 to 76): GET checksum_url, extract the
    checksum by the sha key, then the version by the version key, format the
    file name template and build download_url. The checksum assignment
    happens before the version extraction, so a missing version key leaves a
    partially populated reference. -/
def transmissionPopulate (tmpl sha_key version_key : String) (net : Net) (ref : Reference) :
    Reference × Option PyExc :=
  match get_raised net ref.checksum_url with
  | .error e => (ref, some e)
  | .ok resp =>
    match searchQuoted (sha_key ++ ": \x22") resp.text with
    | none => (ref, some (.attributeError "group"))
    | some cs =>
      let ref := setChecksum ref cs
      match searchQuoted (version_key ++ ": \x22") resp.text with
      | none => (ref, some (.attributeError "group"))
      | some version =>
        let file_name := pyFormat tmpl version
        let du := "https://github.com/transmission/transmission-releases/raw/master/" ++ file_name
        ({ ref with download_url := some du }, none)

def latestReleaseURL : String := "https://github.com/DopplerHQ/cli/releases/latest"

/-- Doppler._populate (lines 90 to 99): plain GET of the latest release URL
    (no raise_for_status) and version extraction from the final redirect URL,
    not from the body; subscripting a failed match raises typeError. Then
    build checksum_url from the version, GET it raised, search the manifest
    for the checksum and file name pattern, and build download_url from the
    version and the file name. -/
def dopplerPopulate (arch : String) (net : Net) (ref : Reference) : Reference × Option PyExc :=
  match net latestReleaseURL with
  | .error e => (ref, some e)
  | .ok resp =>
    match versionSearch resp.url with
    | none => (ref, some .typeError)
    | some version =>
      let cu := "https://github.com/DopplerHQ/cli/releases/download/" ++ version ++ "/checksums.txt"
      let ref := { ref with checksum_url := some cu }
      match get_raised net ref.checksum_url with
      | .error e => (ref, some e)
      | .ok manifest =>
        match dopplerSearch version arch manifest.text with
        | none => (ref, some (.attributeError "group"))
        | some groups =>
          let ref := setChecksum ref groups.1
          let du := "https://github.com/DopplerHQ/cli/releases/download/" ++ version ++ "/" ++ groups.2
          ({ ref with download_url := some du }, none)

/-- ReferenceFactory._populate (lines 48 to 49) and its overrides: the default
    sets checksum to the body of checksum_url (stripped by the assignment
    validator). -/
def _populate (f : ReferenceFactory) (net : Net) (ref : Reference) : Reference × Option PyExc :=
  match f.kind with
  | .generic =>
    match get_raised net ref.checksum_url with
    | .error e => (ref, some e)
    | .ok r => (setChecksum ref r.text, none)
  | .codecov => codecovPopulate net ref
  | .transmission tmpl sha_key version_key => transmissionPopulate tmpl sha_key version_key net ref
  | .doppler arch => dopplerPopulate arch net ref

/-- ReferenceFactory.make (lines 40 to 46): build the seed Reference, run
    _populate, swallow exactly the exceptions in IGNORED_EXCEPTIONS and let
    every other exception propagate; the reference is returned in the state
    populate reached. -/
def make (f : ReferenceFactory) (net : Net) : Except PyExc Reference :=
  match _populate f net (seedRef f) with
  | (r, none) => .ok r
  | (r, some e) => if IGNORED_EXCEPTIONS e then .ok r else .error e

/-- make as a state passing method call: pydantic allow_mutation is False and
    neither make nor any _populate override assigns to self, so the factory
    after the call is the factory the call received. -/
def makeSt (f : ReferenceFactory) (net : Net) : ReferenceFactory × Except PyExc Reference :=
  (f, make f net)

/-- The module level factory instances (lines 102 to 131). -/
def codecov_bash_uploader : ReferenceFactory :=
  { algorithm := "sha512", download_url := some "https://codecov.io/bash", kind := .codecov }

def test_failure : ReferenceFactory :=
  { algorithm := "sha512"
    download_url := some "https://hecksum.com/failure.txt"
    checksum_url := some "https://hecksum.com/failureSHA512.txt" }

def transmissionChecksumURL : String := "https://transmissionbt.com/includes/js/constants.js"

def transmission_mac : ReferenceFactory :=
  { algorithm := "sha256", checksum_url := some transmissionChecksumURL
    kind := .transmission "Transmission-{version}.dmg" "sha256_dmg" "current_version_dmg" }

def transmission_win_32 : ReferenceFactory :=
  { algorithm := "sha256", checksum_url := some transmissionChecksumURL
    kind := .transmission "transmission-{version}-x86.msi" "sha256_msi32" "current_version_msi" }

def transmission_win_64 : ReferenceFactory :=
  { algorithm := "sha256", checksum_url := some transmissionChecksumURL
    kind := .transmission "transmission-{version}-x64.msi" "sha256_msi64" "current_version_msi" }

def transmission_linux : ReferenceFactory :=
  { algorithm := "sha256", checksum_url := some transmissionChecksumURL
    kind := .transmission "transmission-{version}.tar.xz" "sha256_tar" "current_version_tar" }

def doppler_windows_armv7 : ReferenceFactory :=
  { algorithm := "sha256", kind := .doppler "linux_arm64" }

end References

/-! ## Embedding of src/hecksum.py -/

namespace HecksumPy

/-- The hashlib constructors the module passes as the hasher field. -/
inductive HashFn where
  | sha256 : HashFn
  | sha512 : HashFn
deriving DecidableEq

/-- The qualified name attribute of the builtin hashlib constructors in
    CPython, stored into hash_function by make. -/
def HashFn.qualname : HashFn → String
  | .sha256 => "openssl_sha256"
  | .sha512 => "openssl_sha512"

/-- Calling the constructor on a byte string and taking hexdigest. -/
def HashFn.hexdigest : HashFn → List Nat → String
  | .sha256 => sha256Hex
  | .sha512 => sha512Hex

/-- Reference (lines 19 to 23): four optional str fields, no strip validator
    and no validate_assignment in this module. -/
structure Reference where
  hash_function : Option String := none
  checksum_url : Option String := none
  download_url : Option String := none
  checksum : Option String := none
deriving DecidableEq

/-- A Python value a Reference attribute can hold: a string or None. -/
inductive PyVal where
  | vstr : String → PyVal
  | vnone : PyVal
deriving DecidableEq

def optVal : Option String → PyVal
  | none => .vnone
  | some s => .vstr s

/-- Attribute access on a Reference: pydantic models raise AttributeError for
    a name that is not a declared field. The declared fields are
    hash_function, checksum_url, download_url and checksum. -/
def Reference.getattr (r : Reference) (name : String) : Except PyExc PyVal :=
  if name = "hash_function" then .ok (optVal r.hash_function)
  else if name = "checksum_url" then .ok (optVal r.checksum_url)
  else if name = "download_url" then .ok (optVal r.download_url)
  else if name = "checksum" then .ok (optVal r.checksum)
  else .error (.attributeError name)

/-- The variant specific part of a factory in this module. -/
inductive FactoryKind where
  | generic : FactoryKind
  | codecov : FactoryKind
  | transmission : (file_name_template sha_key version_key : String) → FactoryKind
deriving DecidableEq

/-- ReferenceFactory (lines 26 to 48) and its subclasses: hasher plus three
    optional seed fields, allow_mutation False. -/
structure ReferenceFactory where
  hasher : HashFn
  checksum_url : Option String := none
  download_url : Option String := none
  checksum : Option String := none
  kind : FactoryKind := .generic
deriving DecidableEq

/-- The Reference built at the top of make (lines 37 to 42). -/
def seedRef (f : ReferenceFactory) : Reference :=
  { hash_function := some f.hasher.qualname
    checksum_url := f.checksum_url
    download_url := f.download_url
    checksum := f.checksum }

/-- _populate and its overrides in this module (lines 47 to 75). The generic
    default stores the raw body with no strip. The Transmission override
    first fetches the constants and then reads ref.sha_key inside an f-string
    (line 72); the Reference model declares no field sha_key, so pydantic
    raises AttributeError there, before any assignment to the reference. -/
def _populate (f : ReferenceFactory) (net : Net) (ref : Reference) : Reference × Option PyExc :=
  match f.kind with
  | .generic =>
    match get_raised net ref.checksum_url with
    | .error e => (ref, some e)
    | .ok r => ({ ref with checksum := some r.text }, none)
  | .codecov =>
    match get_raised net ref.download_url with
    | .error e => (ref, some e)
    | .ok script =>
      match searchQuoted "VERSION=\x22" script.text with
      | none => (ref, some (.attributeError "group"))
      | some version =>
        let cu := "https://raw.githubusercontent.com/codecov/codecov-bash/" ++ version ++ "/SHA512SUM"
        let ref := { ref with checksum_url := some cu }
        match get_raised net ref.checksum_url with
        | .error e => (ref, some e)
        | .ok cs =>
          match searchGroupBefore "  codecov" cs.text with
          | none => (ref, some (.attributeError "group"))
          | some g => ({ ref with checksum := some g }, none)
  | .transmission _ _ _ =>
    match get_raised net ref.checksum_url with
    | .error e => (ref, some e)
    | .ok _ =>
      match Reference.getattr ref "sha_key" with
      | .error e => (ref, some e)
      | .ok _ => (ref, some .typeError)

/-- ReferenceFactory.make (lines 36 to 45): build the seed Reference and run
    _populate under contextlib.suppress of Exception, so every exception of
    the embedding (all constructors of PyExc stand for Exception subclasses)
    is swallowed and make always returns the reference in the state populate
    reached. -/
def make (f : ReferenceFactory) (net : Net) : Reference :=
  (_populate f net (seedRef f)).1

/-- make as a state passing method call: allow_mutation is False and no
    statement of make or _populate assigns to self. -/
def makeSt (f : ReferenceFactory) (net : Net) : ReferenceFactory × Reference :=
  (f, make f net)

/-- The module level factory instances (lines 78 to 103). -/
def codecov_bash_uploader : ReferenceFactory :=
  { hasher := .sha512, download_url := some "https://codecov.io/bash", kind := .codecov }

def test_failure : ReferenceFactory :=
  { hasher := .sha512
    download_url := some "https://hecksum.com/failure.txt"
    checksum_url := some "https://hecksum.com/failureSHA512.txt" }

def transmissionChecksumURL : String := "https://transmissionbt.com/includes/js/constants.js"

def transmission_mac : ReferenceFactory :=
  { hasher := .sha256, checksum_url := some transmissionChecksumURL
    kind := .transmission "Transmission-{version}.dmg" "sha256_dmg" "current_version_dmg" }

def transmission_win_32 : ReferenceFactory :=
  { hasher := .sha256, checksum_url := some transmissionChecksumURL
    kind := .transmission "transmission-{version}-x86.msi" "sha256_msi32" "current_version_msi" }

def transmission_win_64 : ReferenceFactory :=
  { hasher := .sha256, checksum_url := some transmissionChecksumURL
    kind := .transmission "transmission-{version}-x64.msi" "sha256_msi64" "current_version_msi" }

def transmission_linux : ReferenceFactory :=
  { hasher := .sha256, checksum_url := some transmissionChecksumURL
    kind := .transmission "transmission-{version}.tar.xz" "sha256_tar" "current_version_tar" }

/-- Project (lines 106 to 119): a name, a tracking id, and the static registry
    mapping tracking ids to factory instances; an id outside the registry
    raises KeyError at lookup. -/
structure Project where
  name : String
  airtable_id : String
deriving DecidableEq

def REFERENCE_FACTORIES (id : String) : Option ReferenceFactory :=
  if id = "rec1stqERwHeVoyTr" then some codecov_bash_uploader
  else if id = "recU4m6YnYdQ4U76q" then some test_failure
  else if id = "recPGEEzOeJ2gNh7u" then some transmission_mac
  else if id = "rec6xk5CUPcjsqIyD" then some transmission_win_32
  else if id = "recZOMQpGtd524lsj" then some transmission_win_64
  else if id = "recVSRZVqVDt2SCom" then some transmission_linux
  else none

/-- Status (lines 122 to 125). -/
inductive Status where
  | passing : Status
  | error : Status
  | failing : Status
deriving DecidableEq

/-- Check (lines 128 to 151). -/
structure Check where
  project : Project
  status : Status
  checksum : Option String
  checksum_url : Option String
  download_url : Option String
deriving DecidableEq

/-- Check.create_download_checksum (lines 153 to 158): GET the URL,
    raise_for_status, hash the content with the passed constructor. -/
def create_download_checksum (net : Net) (url : Option String) (hasher : HashFn) :
    Except PyExc String :=
  match getOpt net url with
  | .error e => .error e
  | .ok r => if r.ok then .ok (hasher.hexdigest r.content) else .error .httpError

/-- Check.create (lines 135 to 151): resolve the reference through the
    registry (KeyError outside the try block for an unknown id), then inside
    the try block evaluate the argument expression ref.hash_func; the
    Reference model defines hash_function, not hash_func, so this lookup
    raises AttributeError. Were an attribute value obtained it would be a
    string or None, and calling it as a hash constructor would raise
    TypeError. Any exception in the block yields status Error; otherwise the
    status is passing exactly when the stored checksum equals the computed
    one (None never equals a str). -/
def create (net : Net) (p : Project) : Except PyExc Check :=
  match REFERENCE_FACTORIES p.airtable_id with
  | none => .error .keyError
  | some f =>
    let ref := make f net
    let attempt : Except PyExc String :=
      match ref.getattr "hash_func" with
      | .error e => .error e
      | .ok _ => .error .typeError
    let status : Status :=
      match attempt with
      | .error _ => .error
      | .ok dc => if ref.checksum = some dc then .passing else .failing
    .ok { project := p, status := status, checksum := ref.checksum
          checksum_url := ref.checksum_url, download_url := ref.download_url }

end HecksumPy

/-! ## Concrete inputs used by the claim theorems and witnesses -/

/-- True when the second string is a suffix of the first. -/
def strEndsWith (s tail : String) : Bool := tail.data.isSuffixOf s.data

/-- A transport that fails every GET with a network error. -/
def netAllRequestError : Net := fun _ => .error .requestException

/-- A transport that fails every GET with a RuntimeError, an exception kind
    outside the configured ignorable set. -/
def netAllRuntimeError : Net := fun _ => .error .runtimeError

def c1Seed : HecksumPy.Reference := HecksumPy.seedRef HecksumPy.test_failure

def c2Project : HecksumPy.Project :=
  { name := "Test Failure", airtable_id := "recU4m6YnYdQ4U76q" }

/-- A transport under which the stored reference checksum and the checksum of
    the downloaded artifact agree: the checksum URL serves the SHA-512 digest
    of the empty artifact served by the download URL. -/
def c2Net : Net := fun u =>
  if u = "https://hecksum.com/failureSHA512.txt" then .ok { text := sha512Hex [] }
  else if u = "https://hecksum.com/failure.txt" then .ok { content := [] }
  else .error .requestException

def c3Project : HecksumPy.Project :=
  { name := "Test Failure", airtable_id := "recU4m6YnYdQ4U76q" }

def c4Checksum1 : String :=
  "aaaaaaaaaaaaaaaaaaaaaaaaaaaaaaaaaaaaaaaaaaaaaaaaaaaaaaaaaaaaaaaa"

def c4Checksum2 : String :=
  "bbbbbbbbbbbbbbbbbbbbbbbbbbbbbbbbbbbbbbbbbbbbbbbbbbbbbbbbbbbbbbbb"

/-- A manifest with two lines matching the Doppler pattern for version 1.2.3
    and architecture linux_arm64; the first line starts at index 0 and the
    second at index 99. -/
def c4Manifest : String :=
  c4Checksum1 ++ "  doppler_1.2.3_linux_arm64.tar.gz\n"
    ++ c4Checksum2 ++ "  doppler_1.2.3_linux_arm64.zip\n"

def c4ManifestURL : String :=
  "https://github.com/DopplerHQ/cli/releases/download/1.2.3/checksums.txt"

def c4TagURL : String := "https://github.com/DopplerHQ/cli/releases/tag/1.2.3"

/-- Two transports that differ only in the body of the latest release page;
    the redirect target and the manifest are the same. -/
def c4Net1 : Net := fun u =>
  if u = References.latestReleaseURL then .ok { url := c4TagURL, text := "body one" }
  else if u = c4ManifestURL then .ok { text := c4Manifest }
  else .error .requestException

def c4Net2 : Net := fun u =>
  if u = References.latestReleaseURL then .ok { url := c4TagURL, text := "body two" }
  else if u = c4ManifestURL then .ok { text := c4Manifest }
  else .error .requestException

def c4Ref : References.Reference := References.seedRef References.doppler_windows_armv7

def c5Body : String :=
  "sha256_dmg: \x22deadbeef\x22,\ncurrent_version_dmg: \x223.00\x22,\n"

/-- A factory configured as the claim asks: the Transmission extractor with
    file name template Foo-(version).dmg, sha key sha256_dmg and version key
    current_version_dmg. -/
def c5Factory : References.ReferenceFactory :=
  { algorithm := "sha256", checksum_url := some References.transmissionChecksumURL
    kind := .transmission "Foo-{version}.dmg" "sha256_dmg" "current_version_dmg" }

def c5Net : Net := fun u =>
  if u = References.transmissionChecksumURL then .ok { text := c5Body }
  else .error .requestException

def c5DownloadURL : String :=
  "https://github.com/transmission/transmission-releases/raw/master/Foo-3.00.dmg"

def c6Net : Net := fun _ => .ok { text := "abc123\n" }

def c8Ref : References.Reference :=
  { algorithm := "sha256", download_url := some "https://example.com/artifact" }

def c8Net : Net := fun _ => .ok {}

def c9Ref : References.Reference := References.seedRef References.test_failure

def sha256EmptyDigest : String :=
  "e3b0c44298fc1c149afbf4c8996fb92427ae41e4649b934ca495991b7852b855"

/-! ## Theorems -/

section

set_option maxRecDepth 1000000

/-- The SHA-256 implementation maps the empty message to the well known
    digest listed in the spec. -/
theorem sha256Hex_nil : sha256Hex [] = sha256EmptyDigest := by
  decide

/-- The SHA-512 implementation maps the empty message to the well known
    digest. -/
theorem sha512Hex_nil :
    sha512Hex [] = "cf83e1357eefb8bdf1542850d66d8007d620e4050b5715dc83f4a921d36ce9ce47d0d13c5d85f2b0ff8318d2877eec2f63b931bd47417a81a538327af927da3e" := by
  decide

end

/-- Attribute access for the name hash_func on a Reference of src/hecksum.py
    raises AttributeError: the model declares no such field. -/
theorem getattr_hash_func (r : HecksumPy.Reference) :
    r.getattr "hash_func" = .error (.attributeError "hash_func") := rfl

/-- Truthiness of an optional string field, as a proposition. -/
theorem truthyStr_iff (v : Option String) :
    truthyStr v = true ↔ ∃ s, v = some s ∧ s ≠ "" := by
  cases v with
  | none => simp [truthyStr]
  | some s => simp [truthyStr]

/-- C7: Reference.populated returns true exactly when every one of the four
    fields algorithm, checksum_url, download_url and checksum is non empty,
    so a resolution that failed partway and left a field unset makes
    populated return false. -/
theorem populated_iff_fields_nonempty (r : References.Reference) :
    References.populated r = true ↔
      r.algorithm ≠ "" ∧ (∃ s, r.checksum_url = some s ∧ s ≠ "")
        ∧ (∃ s, r.download_url = some s ∧ s ≠ "")
        ∧ (∃ s, r.checksum = some s ∧ s ≠ "") := by
  simp [References.populated, truthyStr_iff]

/-- C10: factories are immutable: a make call leaves every field of this
    factory, in particular its algorithm and its seed URLs and checksum, as it
    found them, in both modules. -/
theorem factory_immutable (f : References.ReferenceFactory)
    (g : HecksumPy.ReferenceFactory) (net : Net) :
    (References.makeSt f net).1 = f
      ∧ (References.makeSt f net).1.algorithm = f.algorithm
      ∧ (References.makeSt f net).1.checksum_url = f.checksum_url
      ∧ (References.makeSt f net).1.download_url = f.download_url
      ∧ (References.makeSt f net).1.checksum = f.checksum
      ∧ (HecksumPy.makeSt g net).1 = g :=
  ⟨rfl, rfl, rfl, rfl, rfl, rfl⟩

/-- C9: two successive make calls on the same factory against an unchanged
    transport yield references whose four fields agree pairwise. -/
theorem make_idempotent (f : References.ReferenceFactory) (net : Net)
    (r1 r2 : References.Reference)
    (h1 : (References.makeSt f net).2 = Except.ok r1)
    (h2 : (References.makeSt (References.makeSt f net).1 net).2 = Except.ok r2) :
    r1.algorithm = r2.algorithm ∧ r1.checksum_url = r2.checksum_url
      ∧ r1.download_url = r2.download_url ∧ r1.checksum = r2.checksum := by
  have h2x : (References.makeSt f net).2 = Except.ok r2 := h2
  rw [h1] at h2x
  injection h2x with hx
  rw [hx]
  exact ⟨rfl, rfl, rfl, rfl⟩

/-- Witness for C9 at a concrete factory and transport. -/
theorem make_idempotent_witness :
    (References.makeSt References.test_failure netAllRequestError).2 = Except.ok c9Ref
      ∧ (c9Ref.algorithm = c9Ref.algorithm ∧ c9Ref.checksum_url = c9Ref.checksum_url
          ∧ c9Ref.download_url = c9Ref.download_url ∧ c9Ref.checksum = c9Ref.checksum) :=
  ⟨rfl, make_idempotent References.test_failure netAllRequestError c9Ref c9Ref rfl rfl⟩

/-- C1 (amended): in src/hecksum/references.py, when populate raises, make
    returns the reference in the state populate reached when the exception
    kind is in the configured ignorable set IGNORED_EXCEPTIONS, and lets the
    exception propagate otherwise; in src/hecksum.py, make runs populate
    under suppress of Exception, so it swallows every exception kind and
    always returns the reference in the state populate reached. -/
theorem make_exception_policy :
    (∀ (f : References.ReferenceFactory) (net : Net) (r : References.Reference) (e : PyExc),
        References._populate f net (References.seedRef f) = (r, some e) →
        References.make f net =
          (if IGNORED_EXCEPTIONS e then Except.ok r else Except.error e))
    ∧ (∀ (g : HecksumPy.ReferenceFactory) (net : Net),
        HecksumPy.make g net = (HecksumPy._populate g net (HecksumPy.seedRef g)).1) := by
  constructor
  · intro f net r e h
    unfold References.make
    rw [h]
  · intro g net
    rfl

/-- Witness for C1 at a concrete factory: a network error (ignorable) is
    swallowed and make returns the seed reference, a RuntimeError (not
    ignorable) propagates out of make. -/
theorem make_exception_policy_witness :
    References.make References.test_failure netAllRequestError
        = Except.ok (References.seedRef References.test_failure)
      ∧ References.make References.test_failure netAllRuntimeError
        = Except.error PyExc.runtimeError := by
  constructor
  · have h := make_exception_policy.1 References.test_failure netAllRequestError
      (References.seedRef References.test_failure) PyExc.requestException rfl
    simpa [IGNORED_EXCEPTIONS] using h
  · have h := make_exception_policy.1 References.test_failure netAllRuntimeError
      (References.seedRef References.test_failure) PyExc.runtimeError rfl
    simpa [IGNORED_EXCEPTIONS] using h

/-- C1 counterexample: in src/hecksum.py the populate step raises a
    RuntimeError, an exception kind outside the configured ignorable set, yet
    make returns normally with the reference instead of letting the exception
    propagate to its caller. -/
theorem make_swallows_non_ignorable :
    IGNORED_EXCEPTIONS PyExc.runtimeError = false
      ∧ (HecksumPy._populate HecksumPy.test_failure netAllRuntimeError c1Seed).2
          = some PyExc.runtimeError
      ∧ HecksumPy.make HecksumPy.test_failure netAllRuntimeError = c1Seed :=
  ⟨rfl, rfl, rfl⟩

/-- C3: in src/hecksum.py, Check.create of any registered project returns a
    Check with status Error whatever the transport serves, because the try
    block reads ref.hash_func while the Reference model only defines the
    field hash_function, so the checksum computation step raises
    AttributeError before any download or comparison. -/
theorem create_always_error (net : Net) (p : HecksumPy.Project)
    (f : HecksumPy.ReferenceFactory)
    (hreg : HecksumPy.REFERENCE_FACTORIES p.airtable_id = some f) :
    ∃ c : HecksumPy.Check, HecksumPy.create net p = Except.ok c
      ∧ c.status = HecksumPy.Status.error := by
  unfold HecksumPy.create
  rw [hreg]
  exact ⟨_, rfl, rfl⟩

/-- Witness for C3 at a concrete project and transport. -/
theorem create_always_error_witness :
    ∃ c : HecksumPy.Check, HecksumPy.create netAllRequestError c3Project = Except.ok c
      ∧ c.status = HecksumPy.Status.error :=
  create_always_error netAllRequestError c3Project HecksumPy.test_failure (by decide)

/-- C2 (code bug witness): under a transport where the stored reference
    checksum equals the digest of the downloaded artifact, so the claim and
    the spec expect status Passing, Check.create of src/hecksum.py still
    returns status Error. -/
theorem create_error_despite_match :
    (HecksumPy.make HecksumPy.test_failure c2Net).checksum = some (sha512Hex [])
      ∧ HecksumPy.create_download_checksum c2Net (some "https://hecksum.com/failure.txt")
          HecksumPy.HashFn.sha512 = Except.ok (sha512Hex [])
      ∧ (HecksumPy.create c2Net c2Project).map HecksumPy.Check.status
          = Except.ok HecksumPy.Status.error :=
  ⟨rfl, rfl, rfl⟩

/-- The search of the Doppler manifest pattern returns the match at the first
    matching position: whenever the pattern matches at position i, the search
    result is the match at some position j at most i before which every
    position fails. -/
theorem dopplerSearchAux_first (version arch : String) (s : List Char) :
    ∀ (i : Nat) (r : String × String),
      dopplerMatchAt version arch (s.drop i) = some r →
      ∃ j, j ≤ i ∧ (∀ k, k < j → dopplerMatchAt version arch (s.drop k) = none)
        ∧ dopplerSearchAux version arch s = dopplerMatchAt version arch (s.drop j) := by
  induction s with
  | nil =>
    intro i r h
    refine ⟨0, Nat.zero_le i, fun k hk => absurd hk (Nat.not_lt_zero k), ?_⟩
    simp only [List.drop_nil]
    rfl
  | cons c rest ih =>
    intro i r h
    cases hm : dopplerMatchAt version arch (c :: rest) with
    | some r0 =>
      refine ⟨0, Nat.zero_le i, fun k hk => absurd hk (Nat.not_lt_zero k), ?_⟩
      rw [List.drop_zero, hm]
      simp [dopplerSearchAux, hm]
    | none =>
      cases i with
      | zero =>
        rw [List.drop_zero] at h
        rw [h] at hm
        exact absurd hm (by simp)
      | succ i =>
        rw [List.drop_succ_cons] at h
        obtain ⟨j, hj, hnone, heq⟩ := ih i r h
        refine ⟨j + 1, Nat.succ_le_succ hj, ?_, ?_⟩
        · intro k hk
          cases k with
          | zero => simpa using hm
          | succ k => rw [List.drop_succ_cons]; exact hnone k (Nat.lt_of_succ_lt_succ hk)
        · rw [List.drop_succ_cons]
          calc dopplerSearchAux version arch (c :: rest)
              = dopplerSearchAux version arch rest := by simp [dopplerSearchAux, hm]
            _ = dopplerMatchAt version arch (rest.drop j) := heq

/-- The manifest URL built by the Doppler extractor is never the latest
    release URL, whatever the version string. -/
theorem manifestURL_ne_latest (version : String) :
    "https://github.com/DopplerHQ/cli/releases/download/" ++ version ++ "/checksums.txt"
      ≠ References.latestReleaseURL := by
  intro h
  have hl := congrArg String.length h
  rw [String.length_append, String.length_append] at hl
  have ha : ("https://github.com/DopplerHQ/cli/releases/download/").length = 51 := by decide
  have hb : ("/checksums.txt").length = 14 := by decide
  have hc : (References.latestReleaseURL).length = 48 := by decide
  rw [ha, hb, hc] at hl
  omega

/-- C4: the Doppler extractor obtains the version from the redirect target of
    the latest release URL and not from that response body, and the manifest
    search takes the first matching position, so with two or more matching
    lines the checksum and file name come deterministically from the first
    matching line, independent of the rest of the file. -/
theorem doppler_first_match_and_redirect :
    (∀ (version arch : String) (s : List Char) (i : Nat) (r : String × String),
        dopplerMatchAt version arch (s.drop i) = some r →
        ∃ j, j ≤ i ∧ (∀ k, k < j → dopplerMatchAt version arch (s.drop k) = none)
          ∧ dopplerSearchAux version arch s = dopplerMatchAt version arch (s.drop j))
    ∧ (∀ (arch : String) (net1 net2 : Net) (ref : References.Reference) (r1 r2 : Resp),
        net1 References.latestReleaseURL = Except.ok r1 →
        net2 References.latestReleaseURL = Except.ok r2 →
        r1.url = r2.url →
        (∀ u, u ≠ References.latestReleaseURL → net1 u = net2 u) →
        References.dopplerPopulate arch net1 ref
          = References.dopplerPopulate arch net2 ref) := by
  constructor
  · exact fun version arch s => dopplerSearchAux_first version arch s
  · intro arch net1 net2 ref r1 r2 h1 h2 hurl hrest
    unfold References.dopplerPopulate
    rw [h1, h2]
    dsimp only
    rw [hurl]
    cases hv : versionSearch r2.url with
    | none => rfl
    | some version =>
      have hng : net1 ("https://github.com/DopplerHQ/cli/releases/download/"
            ++ version ++ "/checksums.txt")
          = net2 ("https://github.com/DopplerHQ/cli/releases/download/"
            ++ version ++ "/checksums.txt") :=
        hrest _ (manifestURL_ne_latest version)
      simp only [get_raised, getOpt, hng]

/-- Witness for C4: on a concrete manifest holding two matching lines, the
    search result is the first line (first match theorem applied at the start
    position of the second matching line), and two transports that differ
    only in the body of the latest release page populate identically; the
    populated reference carries the checksum and file name of the first line
    and a version that could only come from the redirect target. -/
theorem doppler_first_match_and_redirect_witness :
    (∃ j, j ≤ 99 ∧ (∀ k, k < j →
          dopplerMatchAt "1.2.3" "linux_arm64" (c4Manifest.data.drop k) = none)
        ∧ dopplerSearchAux "1.2.3" "linux_arm64" c4Manifest.data
            = dopplerMatchAt "1.2.3" "linux_arm64" (c4Manifest.data.drop j))
      ∧ References.dopplerPopulate "linux_arm64" c4Net1 c4Ref
          = References.dopplerPopulate "linux_arm64" c4Net2 c4Ref
      ∧ dopplerSearch "1.2.3" "linux_arm64" c4Manifest
          = some (c4Checksum1, "doppler_1.2.3_linux_arm64.tar.gz")
      ∧ (References.dopplerPopulate "linux_arm64" c4Net1 c4Ref).1.checksum = some c4Checksum1
      ∧ (References.dopplerPopulate "linux_arm64" c4Net1 c4Ref).1.download_url
          = some "https://github.com/DopplerHQ/cli/releases/download/1.2.3/doppler_1.2.3_linux_arm64.tar.gz" := by
  refine ⟨?_, ?_, by decide, by decide, by decide⟩
  · exact doppler_first_match_and_redirect.1 "1.2.3" "linux_arm64"
      c4Manifest.data 99 (c4Checksum2, "doppler_1.2.3_linux_arm64.zip") (by decide)
  · exact doppler_first_match_and_redirect.2 "linux_arm64" c4Net1 c4Net2 c4Ref
      { url := c4TagURL, text := "body one" } { url := c4TagURL, text := "body two" }
      rfl rfl rfl (fun u hu => by simp only [c4Net1, c4Net2, if_neg hu])

/-- C5: the JS constants extractor, configured with template Foo-(version).dmg,
    sha key sha256_dmg and version key current_version_dmg, on fetched content
    holding sha256_dmg: "deadbeef" and current_version_dmg: "3.00", makes a
    Reference whose checksum is deadbeef and whose download URL ends in
    Foo-3.00.dmg. -/
theorem transmission_extracts_constants :
    References.make c5Factory c5Net =
      Except.ok { algorithm := "sha256"
                  checksum_url := some References.transmissionChecksumURL
                  download_url := some c5DownloadURL
                  checksum := some "deadbeef" }
      ∧ strEndsWith c5DownloadURL "Foo-3.00.dmg" = true :=
  ⟨rfl, rfl⟩

/-- C6: the generic default populate stores the body served at checksum_url,
    stripped of surrounding whitespace, as the checksum of the returned
    Reference. -/
theorem generic_populate_strips_body (f : References.ReferenceFactory) (net : Net)
    (u : String) (r : Resp)
    (hk : f.kind = .generic) (hu : f.checksum_url = some u)
    (hnet : net u = Except.ok r) (hok : r.ok = true) :
    References.make f net =
      Except.ok { algorithm := f.algorithm, checksum_url := some u,
                  download_url := f.download_url, checksum := some (pyStrip r.text) } := by
  simp [References.make, References._populate, References.seedRef, get_raised, getOpt,
    References.setChecksum, hk, hu, hnet, hok]

/-- Witness for C6: a body of abc123 and a newline yields checksum abc123. -/
theorem generic_populate_strips_body_witness :
    References.make References.test_failure c6Net =
      Except.ok { algorithm := "sha512"
                  checksum_url := some "https://hecksum.com/failureSHA512.txt"
                  download_url := some "https://hecksum.com/failure.txt"
                  checksum := some "abc123" } := by
  have h := generic_populate_strips_body References.test_failure c6Net
    "https://hecksum.com/failureSHA512.txt" { text := "abc123\n" } rfl rfl rfl rfl
  exact h

/-- C8: computing the download checksum of a reference whose algorithm is
    sha256 over streamed content of zero bytes yields the well known SHA-256
    digest of the empty string. -/
theorem download_checksum_empty_sha256 (net : Net) (r : References.Reference)
    (u : String) (resp : Resp)
    (halg : r.algorithm = "sha256") (hu : r.download_url = some u)
    (hnet : net u = Except.ok resp) (hok : resp.ok = true) (hc : resp.content = []) :
    References.get_download_checksum net r = Except.ok sha256EmptyDigest := by
  simp [References.get_download_checksum, References.hashlibNew, getOpt, halg, hu, hnet,
    hok, hc, sha256Hex_nil]

/-- Witness for C8 at a concrete reference and transport. -/
theorem download_checksum_empty_sha256_witness :
    References.get_download_checksum c8Net c8Ref = Except.ok sha256EmptyDigest :=
  download_checksum_empty_sha256 c8Net c8Ref "https://example.com/artifact" {} rfl rfl rfl rfl rfl
